import Mathlib

/-!
Verification of a WebRTC call-signaling relay server (Express + socket.io +
PostgreSQL).  The definitions below are a shallow embedding of the server's
request handlers and socket event handlers: the database is a record of lists
of rows, each HTTP handler is a function from the database and the request
body to an HTTP result and the updated database, and each socket handler is a
function from the server state (connected sockets, the `activeSockets`
registry map, the database) to the updated state plus the list of emissions
produced by `io.to(...).emit` / `io.emit`.  A boolean `dbFail` argument marks
whether the underlying `pool.query` call throws, which lands the handler in
its `catch` branch.
-/

/-- A row of the `seats` table (schema in db.ts). -/
structure Seat where
  id : Nat
  car_id : Nat
  seat_number : Nat
  is_occupied : Bool
  user_id : Option Nat
deriving DecidableEq

/-- A row of the `calls` table.  `status` is a free string in the schema
(VARCHAR, default 'pending'); timestamps are modelled as naturals. -/
structure CallRec where
  id : Nat
  caller_id : Nat
  receiver_id : Nat
  status : String
  started_at : Nat
  ended_at : Option Nat
deriving DecidableEq

/-- A row of the `messages` table. -/
structure MessageRec where
  id : Nat
  content : String
  user_id : Option Nat
  created_at : Nat
deriving DecidableEq

/-- The Record Store: the tables the claims touch, plus the SERIAL
counters that assign primary keys on insert. -/
structure DB where
  seats : List Seat
  calls : List CallRec
  messages : List MessageRec
  nextCallId : Nat
  nextMessageId : Nat
deriving DecidableEq

/-- Result of an HTTP handler: `res.status(code).json(value)` on the
success path or `res.status(code).json({error: msg})` on an error path. -/
inductive ApiResult (α : Type) where
  | ok (code : Nat) (val : α)
  | err (code : Nat) (msg : String)
deriving DecidableEq

/-- Whether an HTTP result is a 409 Conflict rejection. -/
def ApiResult.isConflict {α : Type} : ApiResult α → Bool
  | .err 409 _ => true
  | _ => false

/-- `PUT /api/seats/:id`: runs
`UPDATE seats SET is_occupied = COALESCE($1, is_occupied), user_id = $2 WHERE id = $3 RETURNING *`
with the body fields `{is_occupied, user_id}` (an absent body field reaches
the query as NULL).  404 when no row matches, 500 when the query throws. -/
def putSeat (db : DB) (id : Nat) (is_occ : Option Bool) (uid : Option Nat)
    (dbFail : Bool) : ApiResult Seat × DB :=
  if dbFail then (.err 500 "Failed to update seat", db)
  else
    match db.seats.find? (fun s => s.id = id) with
    | none => (.err 404 "Seat not found", db)
    | some s =>
      let s2 : Seat := { s with is_occupied := is_occ.getD s.is_occupied, user_id := uid }
      (.ok 200 s2, { db with seats := db.seats.map (fun t => if t.id = id then s2 else t) })

/-- JavaScript truthiness of an optional numeric body field: `undefined`
and `0` are falsy. -/
def jsTruthy : Option Nat → Bool
  | none => false
  | some 0 => false
  | some _ => true

/-- `POST /api/calls`: rejects with 400 unless both `caller_id` and
`receiver_id` are truthy, then runs
`INSERT INTO calls (caller_id, receiver_id, status) VALUES ($1, $2, 'pending') RETURNING *`;
`started_at` defaults to the current timestamp and `ended_at` to NULL. -/
def postCalls (db : DB) (caller_id receiver_id : Option Nat) (now : Nat)
    (dbFail : Bool) : ApiResult CallRec × DB :=
  if !(jsTruthy caller_id) || !(jsTruthy receiver_id) then
    (.err 400 "Caller ID and receiver ID required", db)
  else if dbFail then (.err 500 "Failed to create call", db)
  else
    let c : CallRec :=
      { id := db.nextCallId, caller_id := caller_id.getD 0,
        receiver_id := receiver_id.getD 0, status := "pending",
        started_at := now, ended_at := none }
    (.ok 201 c, { db with calls := db.calls ++ [c], nextCallId := db.nextCallId + 1 })

/-- `PUT /api/calls/:id`: runs
`UPDATE calls SET status = COALESCE($1, status), ended_at = $2 WHERE id = $3 RETURNING *`
with the body fields `{status, ended_at}`: an absent `status` keeps the old
value, while `ended_at` is always overwritten with the supplied value (NULL
when absent).  404 when no row matches, 500 when the query throws. -/
def putCall (db : DB) (id : Nat) (status : Option String) (ended_at : Option Nat)
    (dbFail : Bool) : ApiResult CallRec × DB :=
  if dbFail then (.err 500 "Failed to update call", db)
  else
    match db.calls.find? (fun c => c.id = id) with
    | none => (.err 404 "Call not found", db)
    | some c =>
      let c2 : CallRec := { c with status := status.getD c.status, ended_at := ended_at }
      (.ok 200 c2, { db with calls := db.calls.map (fun t => if t.id = id then c2 else t) })

/-- Server state visible to the socket handlers: the set of currently
connected socket ids (socket.io keeps each socket in a room named by its own
id), the global `activeSockets` map from socket id to user id, and the
database pool. -/
structure ServerState where
  connected : List String
  activeSockets : String → Option Nat
  db : DB

/-- One `emit` towards a socket: the target socket id, the event name, the
`from` tag (the sender's socket id), the opaque payload (offer / answer /
candidate blob) and the optional `callId` field. -/
structure Delivery where
  target : String
  event : String
  sender : String
  payload : String
  callId : Option Nat
deriving DecidableEq

/-- `io.to(to).emit(...)`: delivers to the room named `to`, i.e. to the
socket with that id when it is connected; silently delivers to nobody
otherwise. -/
def ioToEmit (s : ServerState) (tgt : String) (d : Delivery) : List Delivery :=
  if tgt ∈ s.connected then [d] else []

/-- `socket.on('register')`: `activeSockets.set(socket.id, userId)`. -/
def registryRegister (m : String → Option Nat) (sid : String) (uid : Nat) :
    String → Option Nat :=
  fun c => if c = sid then some uid else m c

/-- `activeSockets.get(connectionId)`. -/
def registryResolve (m : String → Option Nat) (sid : String) : Option Nat :=
  m sid

/-- `activeSockets.delete(socket.id)`. -/
def registryForget (m : String → Option Nat) (sid : String) :
    String → Option Nat :=
  fun c => if c = sid then none else m c

/-- The `register` socket handler, lifted to the server state. -/
def handleRegister (s : ServerState) (sid : String) (uid : Nat) : ServerState :=
  { s with activeSockets := registryRegister s.activeSockets sid uid }

/-- The `disconnect` socket handler: the transport drops the socket from
the connected set and the handler deletes its `activeSockets` entry. -/
def handleDisconnect (s : ServerState) (sid : String) : ServerState :=
  { s with connected := s.connected.erase sid,
           activeSockets := registryForget s.activeSockets sid }

/-- `socket.on('offer')`: `io.to(to).emit('offer', {from: socket.id, offer, callId})`.
No state change, no persistence. -/
def handleOffer (s : ServerState) (sender tgt offer : String) (callId : Option Nat) :
    ServerState × List Delivery :=
  (s, ioToEmit s tgt ⟨tgt, "offer", sender, offer, callId⟩)

/-- `socket.on('answer')`: `io.to(to).emit('answer', {from: socket.id, answer, callId})`.
No state change, no persistence. -/
def handleAnswer (s : ServerState) (sender tgt answer : String) (callId : Option Nat) :
    ServerState × List Delivery :=
  (s, ioToEmit s tgt ⟨tgt, "answer", sender, answer, callId⟩)

/-- `socket.on('ice-candidate')`: `io.to(to).emit('ice-candidate', {from: socket.id, candidate})`.
No state change, no persistence. -/
def handleIceCandidate (s : ServerState) (sender tgt candidate : String) :
    ServerState × List Delivery :=
  (s, ioToEmit s tgt ⟨tgt, "ice-candidate", sender, candidate, none⟩)

/-- `socket.on('call-ended')`: `io.to(to).emit('call-ended', {from: socket.id, callId})`.
No state change, no persistence. -/
def handleCallEnded (s : ServerState) (sender tgt : String) (callId : Option Nat) :
    ServerState × List Delivery :=
  (s, ioToEmit s tgt ⟨tgt, "call-ended", sender, "", callId⟩)

/-- `userId || null`: a JS falsy user id (undefined or 0) becomes NULL. -/
def jsOrNull : Option Nat → Option Nat
  | some 0 => none
  | x => x

/-- `socket.on('message')`: looks the sender up in `activeSockets`, runs
`INSERT INTO messages (content, user_id) VALUES ($1, $2) RETURNING *` with
`userId || null`, then on success broadcasts the returned row to every
connected socket via `io.emit`.  When the query throws, the `catch` branch
only logs: nothing is written and nothing is emitted to anyone. -/
def handleMessage (s : ServerState) (sender msg : String) (now : Nat)
    (dbFail : Bool) : ServerState × List (String × MessageRec) :=
  if dbFail then (s, [])
  else
    let userId := s.activeSockets sender
    let newMsg : MessageRec :=
      { id := s.db.nextMessageId, content := msg,
        user_id := jsOrNull userId, created_at := now }
    let db2 : DB := { s.db with messages := s.db.messages ++ [newMsg],
                                nextMessageId := s.db.nextMessageId + 1 }
    ({ s with db := db2 }, s.connected.map (fun c => (c, newMsg)))

/-! ### Concrete fixtures used by counterexamples and witnesses -/

/-- An empty database. -/
def emptyDB : DB :=
  { seats := [], calls := [], messages := [], nextCallId := 1, nextMessageId := 1 }

/-- A database whose only seat (id 1, car 1, seat number 3) is occupied by
user 1. -/
def seatDB : DB :=
  { emptyDB with seats := [⟨1, 1, 3, true, some 1⟩] }

/-- A database whose only call (id 1, caller 1, receiver 2) has already
ended at time 5. -/
def endedCallDB : DB :=
  { emptyDB with calls := [⟨1, 1, 2, "ended", 0, some 5⟩], nextCallId := 2 }

/-- A database whose only call (id 1, caller 1, receiver 2) is active. -/
def activeCallDB : DB :=
  { emptyDB with calls := [⟨1, 1, 2, "active", 0, none⟩], nextCallId := 2 }

/-- Registry holding only the association socket "a" ↦ user 1. -/
def regOnlyA : String → Option Nat :=
  fun c => if c = "a" then some 1 else none

/-- Server state with sockets "a" and "b" connected but only "a"
registered (as user 1). -/
def stateAB : ServerState :=
  { connected := ["a", "b"], activeSockets := regOnlyA, db := emptyDB }

/-! ### C1 — seat claiming -/

/-- Claim C1, counterexample.  The claim says claiming a seat occupied by a
different user fails with `Conflict`.  In the code, `PUT /api/seats/:id` has
no occupancy check: with seat 1 occupied by user 1, a claim by user 2
(body `{is_occupied: true, user_id: 2}`) succeeds with 200 and silently
replaces the occupant; it is not a 409 Conflict. -/
theorem C1_counterexample :
    (putSeat seatDB 1 (some true) (some 2) false).1 = .ok 200 ⟨1, 1, 3, true, some 2⟩ ∧
    ((putSeat seatDB 1 (some true) (some 2) false).1).isConflict = false := by
  decide

/-- Claim C1, amended.  The seat-update operation never returns `Conflict`
and performs no occupancy check: whenever the seat exists (and the store
does not fail), the update succeeds and the occupant becomes exactly the
claimant supplied in the body, regardless of the prior occupant.  At most
one user occupies a seat at any instant only because a seat row stores a
single `user_id`. -/
theorem C1_put_seat_overwrites (db : DB) (id : Nat) (is_occ : Option Bool)
    (uid : Option Nat) (dbFail : Bool) (s : Seat)
    (hfind : db.seats.find? (fun t => t.id = id) = some s) :
    ((putSeat db id is_occ uid dbFail).1).isConflict = false ∧
    (dbFail = false →
      (putSeat db id is_occ uid dbFail).1 =
        .ok 200 { s with is_occupied := is_occ.getD s.is_occupied, user_id := uid }) ∧
    (∀ (t : Seat) (u v : Nat), t.user_id = some u → t.user_id = some v → u = v) := by
  constructor
  · cases dbFail with
    | true => simp [putSeat, ApiResult.isConflict]
    | false => simp [putSeat, hfind, ApiResult.isConflict]
  constructor
  · intro hf
    subst hf
    simp [putSeat, hfind]
  · intro t u v hu hv
    rw [hu] at hv
    exact Option.some.inj hv

/-- Witness for C1: the amended theorem applied to the concrete occupied
seat, claimed by user 2. -/
theorem C1_witness :
    ((putSeat seatDB 1 (some true) (some 2) false).1).isConflict = false ∧
    (false = false →
      (putSeat seatDB 1 (some true) (some 2) false).1 =
        .ok 200 { (⟨1, 1, 3, true, some 1⟩ : Seat) with is_occupied := true, user_id := some 2 }) ∧
    (∀ (t : Seat) (u v : Nat), t.user_id = some u → t.user_id = some v → u = v) :=
  C1_put_seat_overwrites seatDB 1 (some true) (some 2) false ⟨1, 1, 3, true, some 1⟩ (by decide)

/-! ### C2 — call state machine -/

/-- Claim C2, counterexample.  The claim says `ended` is terminal and that
pending→active / (pending|active)→ended are the only transitions that ever
occur, with an update on an ended call accepted as a no-op.  In the code,
`PUT /api/calls/:id` applies any requested status with no transition guard:
on a call already in `ended`, requesting status `pending` succeeds and moves
the call back to `pending` (also clearing `ended_at`), an ended→pending
transition.  Moreover the `answer` socket event never touches the call
record at all: relaying an answer leaves the server state unchanged. -/
theorem C2_counterexample :
    (putCall endedCallDB 1 (some "pending") none false).1 =
      .ok 200 ⟨1, 1, 2, "pending", 0, none⟩ ∧
    (putCall endedCallDB 1 (some "pending") none false).2.calls =
      [⟨1, 1, 2, "pending", 0, none⟩] ∧
    (handleAnswer stateAB "b" "a" "sdp-answer" (some 1)).1 = stateAB := by
  exact ⟨by decide, by decide, rfl⟩

/-- Claim C2, amended.  A call is created in `pending`, but no transition
discipline is enforced afterwards: `PUT /api/calls/:id` on an existing call
always succeeds and sets the status to exactly the requested value (keeping
the old one only when the body omits it), for every current status and every
requested status string — including transitions out of `ended`.  The
`answer` and `call-ended` socket events only relay and never change any call
record. -/
theorem C2_put_call_unguarded (db : DB) (id : Nat) (st : Option String)
    (ea : Option Nat) (c : CallRec)
    (hfind : db.calls.find? (fun t => t.id = id) = some c) :
    (putCall db id st ea false).1 =
      .ok 200 { c with status := st.getD c.status, ended_at := ea } ∧
    (∀ (s : ServerState) (sender tgt ans : String) (cid : Option Nat),
      (handleAnswer s sender tgt ans cid).1 = s ∧
      (handleCallEnded s sender tgt cid).1 = s) := by
  refine ⟨?_, fun s sender tgt ans cid => ⟨rfl, rfl⟩⟩
  simp [putCall, hfind]

/-- Witness for C2: the amended theorem applied to the ended call, with a
requested status of "pending". -/
theorem C2_witness :
    (putCall endedCallDB 1 (some "pending") none false).1 =
      .ok 200 { (⟨1, 1, 2, "ended", 0, some 5⟩ : CallRec) with
                  status := "pending", ended_at := none } ∧
    (∀ (s : ServerState) (sender tgt ans : String) (cid : Option Nat),
      (handleAnswer s sender tgt ans cid).1 = s ∧
      (handleCallEnded s sender tgt cid).1 = s) :=
  C2_put_call_unguarded endedCallDB 1 (some "pending") none
    ⟨1, 1, 2, "ended", 0, some 5⟩ (by decide)

/-! ### C3 — ended_at stamping -/

/-- Claim C3, counterexample.  The claim says `ended_at` is non-null iff
status = ended, is stamped when the call enters `ended`, and is never
modified afterwards.  In the code, (i) transitioning the active call to
`ended` without an `ended_at` body field leaves `ended_at` NULL while the
status is `ended`, and (ii) a later update on the already-ended call with
`ended_at = 9` overwrites the previously stamped value 5. -/
theorem C3_counterexample :
    (putCall activeCallDB 1 (some "ended") none false).1 =
      .ok 200 ⟨1, 1, 2, "ended", 0, none⟩ ∧
    (putCall endedCallDB 1 (some "ended") (some 9) false).1 =
      .ok 200 ⟨1, 1, 2, "ended", 0, some 9⟩ := by
  decide

/-- Claim C3, amended.  `ended_at` is not tied to the status and is not
write-once: every successful call update sets `ended_at` to exactly the
client-supplied body value — NULL when the field is omitted — whatever the
old status, the old `ended_at`, or the requested status. -/
theorem C3_ended_at_is_client_supplied (db : DB) (id : Nat) (st : Option String)
    (ea : Option Nat) (r : CallRec) (db2 : DB)
    (hok : putCall db id st ea false = (.ok 200 r, db2)) :
    r.ended_at = ea := by
  unfold putCall at hok
  simp only [Bool.false_eq_true, if_false] at hok
  cases hfind : db.calls.find? (fun t => t.id = id) with
  | none => rw [hfind] at hok; exact absurd (congrArg Prod.fst hok) (by simp)
  | some c =>
    rw [hfind] at hok
    have h1 : ApiResult.ok 200 { c with status := st.getD c.status, ended_at := ea } =
        ApiResult.ok 200 r := congrArg Prod.fst hok
    cases h1
    rfl

/-- Witness for C3: the amended theorem applied to the active call being
moved to `ended` with no `ended_at` supplied. -/
theorem C3_witness :
    (⟨1, 1, 2, "ended", 0, none⟩ : CallRec).ended_at = none :=
  C3_ended_at_is_client_supplied activeCallDB 1 (some "ended") none
    ⟨1, 1, 2, "ended", 0, none⟩
    { activeCallDB with calls := [⟨1, 1, 2, "ended", 0, none⟩] } (by decide)

/-! ### C4 — persist-then-broadcast ordering for chat messages -/

/-- Claim C4, confirmed.  When the insert fails, the handler's catch branch
emits nothing and the state is unchanged; when it succeeds, every delivered
record is exactly the persisted row — present in the updated messages table,
carrying the store-assigned id (the SERIAL counter) and the store-assigned
timestamp — so no client ever observes a message that is not in the store. -/
theorem C4_broadcast_only_after_persist (s : ServerState) (sender msg : String)
    (now : Nat) :
    handleMessage s sender msg now true = (s, []) ∧
    (∀ (tgt : String) (m2 : MessageRec),
      (tgt, m2) ∈ (handleMessage s sender msg now false).2 →
      m2 ∈ (handleMessage s sender msg now false).1.db.messages ∧
      m2.id = s.db.nextMessageId ∧ m2.created_at = now ∧ m2.content = msg) := by
  refine ⟨rfl, ?_⟩
  intro tgt m2 hmem
  simp only [handleMessage, Bool.false_eq_true, if_false, List.mem_map] at hmem
  obtain ⟨c, hc, heq⟩ := hmem
  have hm2 : m2 = ⟨s.db.nextMessageId, msg, jsOrNull (s.activeSockets sender), now⟩ := by
    have h2 := congrArg Prod.snd heq
    simpa using h2.symm
  subst hm2
  refine ⟨?_, rfl, rfl, rfl⟩
  simp [handleMessage]

/-- Witness for C4: the delivered record on the concrete two-socket state
is in the updated store, with id and timestamp assigned by the store. -/
theorem C4_witness :
    (⟨1, "hi", some 1, 7⟩ : MessageRec) ∈
      (handleMessage stateAB "a" "hi" 7 false).1.db.messages ∧
    (⟨1, "hi", some 1, 7⟩ : MessageRec).id = stateAB.db.nextMessageId ∧
    (⟨1, "hi", some 1, 7⟩ : MessageRec).created_at = 7 ∧
    (⟨1, "hi", some 1, 7⟩ : MessageRec).content = "hi" :=
  (C4_broadcast_only_after_persist stateAB "a" "hi" 7).2 "a"
    ⟨1, "hi", some 1, 7⟩ (by decide)

/-! ### C5 — author attribution and broadcast audience -/

/-- Claim C5, counterexample.  The claim says the broadcast reaches exactly
the connections registered at the moment of broadcast and that no
unregistered connection receives it.  In the code, the broadcast is
`io.emit`, which reaches every *connected* socket: on the state where "a"
and "b" are connected but only "a" is registered, a message from "a" is
delivered to "b" even though "b" was never registered. -/
theorem C5_counterexample :
    registryResolve stateAB.activeSockets "b" = none ∧
    ("b", (⟨1, "hi", some 1, 7⟩ : MessageRec)) ∈
      (handleMessage stateAB "a" "hi" 7 false).2 := by
  decide

/-- Claim C5, amended.  A message from a connection that never registered
is persisted and broadcast with a null author, and the broadcast reaches
exactly the set of *connected* sockets at the moment of broadcast —
registered or not — including the sender. -/
theorem C5_broadcast_all_connected (s : ServerState) (sender msg : String)
    (now : Nat) :
    (handleMessage s sender msg now false).2.map Prod.fst = s.connected ∧
    (registryResolve s.activeSockets sender = none →
      ∀ (tgt : String) (m2 : MessageRec),
        (tgt, m2) ∈ (handleMessage s sender msg now false).2 →
        m2.user_id = none) := by
  constructor
  · simp [handleMessage, List.map_map, Function.comp_def]
  · intro hres tgt m2 hmem
    simp only [handleMessage, Bool.false_eq_true, if_false, List.mem_map] at hmem
    obtain ⟨c, hc, heq⟩ := hmem
    have hm2 : m2 = ⟨s.db.nextMessageId, msg, jsOrNull (s.activeSockets sender), now⟩ := by
      have h2 := congrArg Prod.snd heq
      simpa using h2.symm
    subst hm2
    have hnone : s.activeSockets sender = none := hres
    simp [hnone, jsOrNull]

/-- Witness for C5: on the concrete state, a message from the unregistered
socket "b" is broadcast to the full connected set and carries a null
author. -/
theorem C5_witness :
    (handleMessage stateAB "b" "hi" 7 false).2.map Prod.fst = stateAB.connected ∧
    (⟨1, "hi", none, 7⟩ : MessageRec).user_id = none :=
  ⟨(C5_broadcast_all_connected stateAB "b" "hi" 7).1,
   (C5_broadcast_all_connected stateAB "b" "hi" 7).2 (by decide) "a"
     ⟨1, "hi", none, 7⟩ (by decide)⟩

/-! ### C6 — signaling relay -/

/-- Server state with sockets "a" and "b" connected and nobody registered. -/
def stateABunreg : ServerState :=
  { connected := ["a", "b"], activeSockets := fun _ => none, db := emptyDB }

/-- Claim C6, counterexample.  The claim says a relay addressed to a target
id that was never registered is a silent no-op.  In the code, `io.to(to)`
addresses the socket's room directly and never consults the registry: an
offer to the connected-but-never-registered socket "b" is delivered. -/
theorem C6_counterexample :
    registryResolve stateABunreg.activeSockets "b" = none ∧
    (handleOffer stateABunreg "a" "b" "sdp-offer" (some 1)).2 =
      [⟨"b", "offer", "a", "sdp-offer", some 1⟩] := by
  decide

/-- Claim C6, amended.  Each of the four signaling relays leaves the server
state (including the store — nothing is persisted) unchanged, and delivers
the payload unmodified, tagged with the sender's socket id, to the target
exactly when the target socket is *connected*, regardless of registration;
when the target does not exist the emission list is empty and nothing is
reported to the sender. -/
theorem C6_relay_best_effort (s : ServerState) (sender tgt payload : String)
    (cid : Option Nat) :
    ((handleOffer s sender tgt payload cid).1 = s ∧
     (handleAnswer s sender tgt payload cid).1 = s ∧
     (handleIceCandidate s sender tgt payload).1 = s ∧
     (handleCallEnded s sender tgt cid).1 = s) ∧
    (tgt ∈ s.connected →
      (handleOffer s sender tgt payload cid).2 = [⟨tgt, "offer", sender, payload, cid⟩] ∧
      (handleAnswer s sender tgt payload cid).2 = [⟨tgt, "answer", sender, payload, cid⟩] ∧
      (handleIceCandidate s sender tgt payload).2 =
        [⟨tgt, "ice-candidate", sender, payload, none⟩] ∧
      (handleCallEnded s sender tgt cid).2 = [⟨tgt, "call-ended", sender, "", cid⟩]) ∧
    (tgt ∉ s.connected →
      (handleOffer s sender tgt payload cid).2 = [] ∧
      (handleAnswer s sender tgt payload cid).2 = [] ∧
      (handleIceCandidate s sender tgt payload).2 = [] ∧
      (handleCallEnded s sender tgt cid).2 = []) := by
  refine ⟨⟨rfl, rfl, rfl, rfl⟩, ?_, ?_⟩
  · intro h
    exact ⟨by simp [handleOffer, ioToEmit, h], by simp [handleAnswer, ioToEmit, h],
           by simp [handleIceCandidate, ioToEmit, h], by simp [handleCallEnded, ioToEmit, h]⟩
  · intro h
    exact ⟨by simp [handleOffer, ioToEmit, h], by simp [handleAnswer, ioToEmit, h],
           by simp [handleIceCandidate, ioToEmit, h], by simp [handleCallEnded, ioToEmit, h]⟩

/-- Witness for C6: on the concrete state, an offer to the connected socket
"b" is delivered tagged with the sender, and an offer to the nonexistent
socket "z" delivers nothing. -/
theorem C6_witness :
    (handleOffer stateABunreg "a" "b" "sdp-offer" (some 1)).2 =
      [⟨"b", "offer", "a", "sdp-offer", some 1⟩] ∧
    (handleOffer stateABunreg "a" "z" "sdp-offer" (some 1)).2 = [] :=
  ⟨((C6_relay_best_effort stateABunreg "a" "b" "sdp-offer" (some 1)).2.1 (by decide)).1,
   ((C6_relay_best_effort stateABunreg "a" "z" "sdp-offer" (some 1)).2.2 (by decide)).1⟩

/-! ### C7 — registry register / forget / resolve -/

/-- Claim C7, confirmed.  Registering a connection and then disconnecting
it makes resolution yield absent; re-registering the same connection
overwrites the prior association; and the disconnect handler on a
never-registered connection leaves the registry map untouched. -/
theorem C7_registry_lifecycle (s : ServerState) (c : String) (u u2 : Nat) :
    registryResolve (handleDisconnect (handleRegister s c u) c).activeSockets c = none ∧
    registryResolve (handleRegister (handleRegister s c u) c u2).activeSockets c = some u2 ∧
    (registryResolve s.activeSockets c = none →
      (handleDisconnect s c).activeSockets = s.activeSockets) := by
  refine ⟨?_, ?_, ?_⟩
  · simp [handleDisconnect, handleRegister, registryForget, registryResolve]
  · simp [handleRegister, registryRegister, registryResolve]
  · intro h
    have hmap : registryForget s.activeSockets c = s.activeSockets := by
      funext x
      by_cases hx : x = c
      · subst hx
        simp only [registryForget, if_pos rfl]
        exact (show s.activeSockets x = none from h).symm
      · simp [registryForget, hx]
    simp [handleDisconnect, hmap]

/-- Witness for C7: the lifecycle theorem at the concrete state, on the
never-registered socket id "z". -/
theorem C7_witness :
    registryResolve (handleDisconnect (handleRegister stateAB "z" 1) "z").activeSockets "z" = none ∧
    registryResolve (handleRegister (handleRegister stateAB "z" 1) "z" 2).activeSockets "z" = some 2 ∧
    (handleDisconnect stateAB "z").activeSockets = stateAB.activeSockets :=
  ⟨(C7_registry_lifecycle stateAB "z" 1 2).1,
   (C7_registry_lifecycle stateAB "z" 1 2).2.1,
   (C7_registry_lifecycle stateAB "z" 1 2).2.2 (by decide)⟩

/-! ### C8 — StoreFailure handling -/

/-- Claim C8, counterexample.  The claim says a persistence failure during
a message mutation is reported back to the originating client.  In the
code, the message handler's catch branch only logs to the server console:
at the concrete failing input, the handler produces no emission at all —
in particular nothing towards the sender "a" — so the failure is never
reported to the originating client (state is correctly left unchanged). -/
theorem C8_counterexample :
    handleMessage stateAB "a" "hi" 7 true = (stateAB, []) := rfl

/-- Claim C8, amended.  A `StoreFailure` aborts the single operation it
hits and leaves all state unchanged (no partial writes); the HTTP call and
seat mutations report it to the client as a 500 error, but the socket
message mutation emits nothing at all — the failure is only logged
server-side, not reported to the originating client. -/
theorem C8_store_failure_behaviour (db : DB) (id : Nat) (st : Option String)
    (ea : Option Nat) (is_occ : Option Bool) (uid : Option Nat)
    (s : ServerState) (sender msg : String) (now : Nat) :
    putCall db id st ea true = (.err 500 "Failed to update call", db) ∧
    putSeat db id is_occ uid true = (.err 500 "Failed to update seat", db) ∧
    postCalls db (some 1) (some 2) now true = (.err 500 "Failed to create call", db) ∧
    handleMessage s sender msg now true = (s, []) :=
  ⟨rfl, rfl, rfl, rfl⟩

/-! ### C9 — caller ≠ receiver invariant -/

/-- Claim C9, counterexample.  The claim says every reachable call record
has caller_id ≠ receiver_id.  In the code, `POST /api/calls` only checks
that both ids are truthy: creating a call with caller_id = receiver_id = 1
succeeds with 201 and inserts a record whose two parties are equal. -/
theorem C9_counterexample :
    (postCalls emptyDB (some 1) (some 1) 0 false).1 =
      .ok 201 ⟨1, 1, 1, "pending", 0, none⟩ ∧
    (postCalls emptyDB (some 1) (some 1) 0 false).2.calls =
      [⟨1, 1, 1, "pending", 0, none⟩] := by
  decide

/-- Claim C9, amended.  Call creation validates only the presence
(JS truthiness) of `caller_id` and `receiver_id`; it never compares them,
so any pair of nonzero ids — equal or not — yields a 201 and a persisted
`pending` record with exactly the supplied parties. -/
theorem C9_no_distinctness_check (db : DB) (cid rid now : Nat)
    (hc : cid ≠ 0) (hr : rid ≠ 0) :
    (postCalls db (some cid) (some rid) now false).1 =
      .ok 201 ⟨db.nextCallId, cid, rid, "pending", now, none⟩ ∧
    (postCalls db (some cid) (some rid) now false).2.calls =
      db.calls ++ [⟨db.nextCallId, cid, rid, "pending", now, none⟩] := by
  have ht : jsTruthy (some cid) = true := by
    cases cid with
    | zero => exact absurd rfl hc
    | succ n => rfl
  have ht2 : jsTruthy (some rid) = true := by
    cases rid with
    | zero => exact absurd rfl hr
    | succ n => rfl
  constructor
  · simp [postCalls, ht, ht2]
  · simp [postCalls, ht, ht2]

/-- Witness for C9: the amended theorem applied with equal parties
caller_id = receiver_id = 1 on the empty store. -/
theorem C9_witness :
    (postCalls emptyDB (some 1) (some 1) 0 false).1 =
      .ok 201 ⟨emptyDB.nextCallId, 1, 1, "pending", 0, none⟩ ∧
    (postCalls emptyDB (some 1) (some 1) 0 false).2.calls =
      emptyDB.calls ++ [⟨emptyDB.nextCallId, 1, 1, "pending", 0, none⟩] :=
  C9_no_distinctness_check emptyDB 1 1 0 (by decide) (by decide)

/-! ### C10 — disconnect frame property -/

/-- Claim C10, confirmed.  The disconnect handler deletes only the closing
socket's own registry entry: resolving any other connection id yields the
same result after the disconnect as before it. -/
theorem C10_disconnect_frame (s : ServerState) (c c2 : String) (h : c2 ≠ c) :
    registryResolve (handleDisconnect s c).activeSockets c2 =
      registryResolve s.activeSockets c2 := by
  simp [handleDisconnect, registryForget, registryResolve, h]

/-- Witness for C10: disconnecting "b" on the concrete state leaves the
resolution of "a" unchanged. -/
theorem C10_witness :
    registryResolve (handleDisconnect stateAB "b").activeSockets "a" =
      registryResolve stateAB.activeSockets "a" :=
  C10_disconnect_frame stateAB "b" "a" (by decide)
